import Mathlib

/-!
Verification of the system-harness control-plane library.

The Rust sources are shallowly embedded: pure decision logic (status
translation, event recognition, command serialization) becomes Lean
functions; stateful code that talks to the outside world (process spawning,
socket reads, external CLI invocations) is modelled by passing the outcomes
of those external interactions in as explicit inputs, so that each function
is a total, executable description of what the Rust code does with those
outcomes.  Rust `Result<T, Error>` becomes the `Result` type below; code
paths that can panic (integer-overflow checks, `Option::unwrap`) are
modelled with an explicit outcome constructor for the panic.
-/

namespace Harness

/-- System status, from `src/lib.rs` (`enum Status`). -/
inductive Status
  | Running
  | Paused
  | Suspended
  | Shutdown
deriving DecidableEq, Repr

/-- Type of event, from `src/lib.rs` (`enum EventKind`). -/
inductive EventKind
  | Shutdown
  | Resume
  | Pause
  | Suspend
deriving DecidableEq, Repr

/-- Injectable keystroke, from `src/lib.rs` (`enum Key`). -/
inductive Key
  | Enter
deriving DecidableEq, Repr

/-- Error taxonomy, from `src/error.rs` (`enum ErrorKind`); `Io` renders the
source's input-output error kind. -/
inductive ErrorKind
  | AlreadyRunning
  | HarnessError
  | PipeError
  | SerializationError
  | Io
deriving DecidableEq, Repr

/-- A harness error: its kind plus the human-readable cause, from
`src/error.rs` (`struct Error`). -/
structure Error where
  kind : ErrorKind
  msg : String
deriving DecidableEq, Repr

/-- Rust `Result<A, Error>` as used throughout the crate. -/
inductive Result (α : Type) where
  | ok (a : α)
  | err (e : Error)
deriving DecidableEq, Repr

/-- Rust `Result::and_then` / the `?` operator. -/
def Result.bind {α β : Type} : Result α → (α → Result β) → Result β
  | Result.ok a, f => f a
  | Result.err e, _ => Result.err e

/-- QMP timestamp, from `src/qemu/qmp.rs` (`struct QmpTimestamp`). -/
structure QmpTimestamp where
  seconds : Nat
  microseconds : Nat
deriving DecidableEq, Repr

/-- Impl `From<QmpTimestamp> for SystemTime` in `src/qemu/qmp.rs`: the number of
microseconds since the epoch, `seconds * 1000000 + microseconds`. -/
def QmpTimestamp.intoMicros (t : QmpTimestamp) : Nat :=
  t.seconds * 1000000 + t.microseconds

/-- A machine event, from `src/lib.rs` (`struct Event`); the timestamp is
the `SystemTime` measured in microseconds since the epoch. -/
structure Event where
  kind : EventKind
  timestamp : Nat
deriving DecidableEq, Repr

/-! ## QMP status translation (`src/qemu/qmp.rs`) -/

/-- The return of `query-status`, from `src/qemu/qmp.rs`
(`struct QmpStatusInfo`). -/
structure QmpStatusInfo where
  running : Bool
  singlestep : Bool
  status : String
deriving DecidableEq, Repr

/-- Impl `TryInto<Status> for QmpStatusInfo` in `src/qemu/qmp.rs`: match on the
textual run state. -/
def QmpStatusInfo.tryIntoStatus (self : QmpStatusInfo) : Result Status :=
  match self.status with
  | "running" => Result.ok Status.Running
  | "shutdown" => Result.ok Status.Shutdown
  | "paused" => Result.ok Status.Paused
  | "save-vm" => Result.ok Status.Paused
  | e => Result.err ⟨ErrorKind.HarnessError, "Unsupported status: " ++ e⟩

/-- The mapping of textual run states claimed by the specification
(written from the spec sentence, for comparison with
`QmpStatusInfo.tryIntoStatus`). -/
def specQmpStatusMap (s : String) : Result Status :=
  if s = "running" then Result.ok Status.Running
  else if s = "shutdown" then Result.ok Status.Shutdown
  else if s = "paused" then Result.ok Status.Paused
  else if s = "save-vm" then Result.ok Status.Paused
  else Result.err ⟨ErrorKind.HarnessError, "Unsupported status: " ++ s⟩

/-! ## Container status translation (`src/container.rs`) -/

/-- Nested `State` flags of a container inspect element, from
`src/container.rs` (`struct State`). -/
structure State where
  running : Bool
  paused : Bool
deriving DecidableEq, Repr

/-- One element of the inspect JSON array, from `src/container.rs`
(`struct Inspect`). -/
structure Inspect where
  state : State
deriving DecidableEq, Repr

/-- The outcome (`std::process::Output`) of a synchronous external command,
decoded to UTF-8: whether its exit status was success, and its stdout and
stderr text. -/
structure Output where
  success : Bool
  stdout : String
  stderr : String
deriving DecidableEq, Repr

/-- Whether `s` ends with `suffix` (`str::ends_with`), computed on the
character lists so that it evaluates inside the kernel. -/
def strEndsWith (s suffix : String) : Bool :=
  suffix.data.isSuffixOf s.data

/-- Function `strip_last_newline` in `src/container.rs`: strip one trailing
`"\r\n"`, else one trailing `"\n"`, else return the input unchanged. -/
def strip_last_newline (input : String) : String :=
  if strEndsWith input "\x0d\n" then input.dropRight 2
  else if strEndsWith input "\n" then input.dropRight 1
  else input

/-- Function `output_to_result` in `src/container.rs`: success yields the stdout
with a final newline stripped; failure yields a HarnessError carrying the
raw stderr text. -/
def output_to_result (output : Output) : Result String :=
  if output.success then Result.ok (strip_last_newline output.stdout)
  else Result.err ⟨ErrorKind.HarnessError, output.stderr⟩

/-- The decision logic of `ContainerSystem::status` in `src/container.rs`,
applied to the parsed inspect array: the first element decides the status;
an empty array is an error. -/
def ContainerSystem.statusOfInspect (inspect : List Inspect) : Result Status :=
  match inspect with
  | [] => Result.err ⟨ErrorKind.HarnessError, "Container doesn\x27t exist"⟩
  | i :: _ =>
    if i.state.running then Result.ok Status.Running
    else if i.state.paused then Result.ok Status.Paused
    else if !i.state.running && !i.state.paused then Result.ok Status.Shutdown
    else Result.err ⟨ErrorKind.HarnessError, "Unhandled status"⟩

/-- The status mapping claimed by the specification for the container
backend (written from the spec sentence, for comparison with
`ContainerSystem.statusOfInspect`). -/
def specContainerStatusMap (s : State) : Status :=
  if s.running then Status.Running
  else if s.paused then Status.Paused
  else Status.Shutdown

/-- Method `ContainerSystem::running` in `src/container.rs`: query status afresh
and compare with `Status::Running`. -/
def ContainerSystem.runningOfInspect (inspect : List Inspect) : Result Bool :=
  match ContainerSystem.statusOfInspect inspect with
  | Result.ok s => Result.ok (s == Status.Running)
  | Result.err e => Result.err e

/-! ## QMP command serialization (`src/qemu/qmp.rs`) -/

/-- One key in the send-key argument list, from `src/qemu/qmp.rs`
(`enum KeyValue`, internally tagged by "type", kebab-case). -/
inductive KeyValue
  | Qcode (data : String)
  | Number (data : Nat)
deriving DecidableEq, Repr

/-- Impl `From<Key> for KeyValue` in `src/qemu/qmp.rs`. -/
def Key.intoKeyValue : Key → KeyValue
  | Key.Enter => KeyValue.Qcode "ret"

/-- Argument payload of the send-key command, from `src/qemu/qmp.rs`
(`struct KeyCommand`). -/
structure KeyCommand where
  keys : List KeyValue
deriving DecidableEq, Repr

/-- The QMP command enumeration, from `src/qemu/qmp.rs` (`enum QmpCommand`,
adjacently tagged by "execute"/"arguments", kebab-case with two renames). -/
inductive QmpCommand
  | QmpCapabilities
  | SendKey (cmd : KeyCommand)
  | QueryStatus
  | Stop
  | Cont
  | Quit
  | SystemPowerdown
deriving DecidableEq, Repr

/-- JSON string escaping as performed by the serializer on the payload
strings (quote and backslash; the payloads used by the crate contain
neither). -/
def jsonEscape (s : String) : String :=
  String.join (s.data.map fun c =>
    if c = '\x22' then "\x5c\x22"
    else if c = '\x5c' then "\x5c\x5c"
    else String.singleton c)

/-- A JSON string literal. -/
def jsonStr (s : String) : String := "\x22" ++ jsonEscape s ++ "\x22"

/-- Serialization of one `KeyValue`, mirroring the serde derive on
`enum KeyValue` (internal tag "type", kebab-case variant names). -/
def KeyValue.serialize : KeyValue → String
  | KeyValue.Qcode data =>
    "\x7b\x22type\x22:\x22qcode\x22,\x22data\x22:" ++ jsonStr data ++ "\x7d"
  | KeyValue.Number data =>
    "\x7b\x22type\x22:\x22number\x22,\x22data\x22:" ++ toString data ++ "\x7d"

/-- Serialization of the send-key payload, mirroring the serde derive on
`struct KeyCommand`. -/
def KeyCommand.serialize (cmd : KeyCommand) : String :=
  "\x7b\x22keys\x22:[" ++ String.intercalate "," (cmd.keys.map KeyValue.serialize) ++ "]\x7d"

/-- The wire name of each `QmpCommand` variant: kebab-case, with
`qmp_capabilities` and `system_powerdown` explicitly renamed, as in
`src/qemu/qmp.rs`. -/
def QmpCommand.variantName : QmpCommand → String
  | QmpCommand.QmpCapabilities => "qmp_capabilities"
  | QmpCommand.SendKey _ => "send-key"
  | QmpCommand.QueryStatus => "query-status"
  | QmpCommand.Stop => "stop"
  | QmpCommand.Cont => "cont"
  | QmpCommand.Quit => "quit"
  | QmpCommand.SystemPowerdown => "system_powerdown"

/-- Serialization of a `QmpCommand`, mirroring the serde derive (adjacent
tagging: tag field "execute", content field "arguments"; unit variants
omit the content field). -/
def QmpCommand.serialize : QmpCommand → String
  | QmpCommand.SendKey cmd =>
    "\x7b\x22execute\x22:\x22send-key\x22,\x22arguments\x22:" ++ cmd.serialize ++ "\x7d"
  | c => "\x7b\x22execute\x22:" ++ jsonStr c.variantName ++ "\x7d"

/-! ## QMP response correlation loop (`src/qemu/qmp.rs`) -/

/-- The return value of a QMP command, from `src/qemu/qmp.rs`
(`enum QmpReturn`). -/
inductive QmpReturn
  | StatusInfo (info : QmpStatusInfo)
  | Empty
deriving DecidableEq, Repr

/-- One parsed frame on the QMP wire, from `src/qemu/qmp.rs`
(`enum QmpResponse`: success return, error, or asynchronous event). -/
inductive QmpResponse
  | Success (ret : QmpReturn)
  | Error (error : String)
  | Event (timestamp : QmpTimestamp) (event : String)
deriving DecidableEq, Repr

/-- Function `create_event` in `src/qemu/qmp.rs`: translate a recognized event name
to an `Event`; unrecognized names give `none`. -/
def create_event (timestamp : QmpTimestamp) (event : String) : Option Event :=
  (match event with
   | "POWERDOWN" => some EventKind.Shutdown
   | "STOP" => some EventKind.Pause
   | "RESUME" => some EventKind.Resume
   | _ => none).map fun kind => ⟨kind, timestamp.intoMicros⟩

/-- Method `QmpStream::send_event` in `src/qemu/qmp.rs`: deliver one event to
every currently registered subscriber, in registration order.  Each
subscriber is modelled by the list of events it has received so far. -/
def send_event (subs : List (List Event)) (ev : Event) : List (List Event) :=
  subs.map fun log => log ++ [ev]

/-- Method `QmpStream::wait_for_return` in `src/qemu/qmp.rs`, run against the
sequence of frames arriving on the wire: read frames until a Success or
Error frame resolves the pending command, delivering each recognized event
frame to every subscriber on the way.  Returns the resolution (`none` if
the frame sequence ends before a terminal frame arrives) and the updated
subscriber logs. -/
def wait_for_return (subs : List (List Event)) :
    List QmpResponse → Option (Result QmpReturn) × List (List Event)
  | [] => (none, subs)
  | QmpResponse.Success ret :: _ => (some (Result.ok ret), subs)
  | QmpResponse.Error e :: _ =>
    (some (Result.err ⟨ErrorKind.HarnessError, e⟩), subs)
  | QmpResponse.Event ts name :: rest =>
    match create_event ts name with
    | some ev => wait_for_return (send_event subs ev) rest
    | none => wait_for_return subs rest

/-- Whether a frame is terminal (resolves the pending command). -/
def isTerminalFrame : QmpResponse → Bool
  | QmpResponse.Success _ => true
  | QmpResponse.Error _ => true
  | QmpResponse.Event _ _ => false

/-- How a terminal frame resolves the pending command. -/
def resolveFrame : QmpResponse → Option (Result QmpReturn)
  | QmpResponse.Success ret => some (Result.ok ret)
  | QmpResponse.Error e => some (Result.err ⟨ErrorKind.HarnessError, e⟩)
  | QmpResponse.Event _ _ => none

/-- The event carried by a frame, if it is a recognized event frame. -/
def eventOfFrame : QmpResponse → Option Event
  | QmpResponse.Event ts name => create_event ts name
  | _ => none

/-- The events the correlation loop delivers for a given frame sequence:
the recognized events among the frames preceding the first terminal
frame, in receipt order. -/
def deliveredEvents (frames : List QmpResponse) : List Event :=
  (frames.takeWhile fun f => !isTerminalFrame f).filterMap eventOfFrame

/-! ## VM backend (`src/qemu.rs`) -/

/-- The outcomes of the external interactions a `QemuSystem` lifecycle call
performs: the result of `process.try_wait()` (the exit code if the spawned
process has exited) and the result of sending `query-status` over QMP. -/
structure QemuWorld where
  tryWait : Result (Option Nat)
  queryStatus : Result QmpReturn
deriving DecidableEq, Repr

/-- Method `QemuSystem::running` in `src/qemu.rs`: `try_wait` and compare the
exit status with `None` — process liveness, not QMP state. -/
def QemuSystem.running (w : QemuWorld) : Result Bool :=
  match w.tryWait with
  | Result.ok st => Result.ok st.isNone
  | Result.err e => Result.err e

/-- Method `QemuSystem::status` in `src/qemu.rs`: send `query-status` and
translate the `StatusInfo` return; any other return shape is an error. -/
def QemuSystem.status (w : QemuWorld) : Result Status :=
  match w.queryStatus with
  | Result.ok (QmpReturn.StatusInfo info) => info.tryIntoStatus
  | Result.ok QmpReturn.Empty =>
    Result.err ⟨ErrorKind.HarnessError, "Unexpected return"⟩
  | Result.err e => Result.err e

/-! ## VM startup connect loop (`src/qemu.rs`, `QemuSystemConfig::build`) -/

/-- How the connect-with-retry loop in `QemuSystemConfig::build` ends.
After the `while` loop, the code runs `qmp_socket.unwrap()`: if the loop
exited because the process had exited while no connect attempt had
succeeded, `qmp_socket` is `None` and the `unwrap` panics. -/
inductive LoopOutcome
  | connected
  | panicked
  | errorReturn (e : Error)
  | fuelOut
deriving DecidableEq, Repr

/-- The connect-with-retry loop of `QemuSystemConfig::build` in
`src/qemu.rs`:

  while process.try_wait()?.is_none() and qmp_socket.is_none() do
    qmp_socket := connect().ok()
  qmp_socket.unwrap()

`tryWait i` is the outcome of the i-th `try_wait` poll, `connect i`
whether the i-th connect attempt succeeds, `sock` whether a previous
attempt already produced a socket, and `fuel` bounds the unrolling so the
model is total. -/
def connectLoop (tryWait : Nat → Result (Option Nat)) (connect : Nat → Bool) :
    Nat → Nat → Bool → LoopOutcome
  | 0, _, _ => LoopOutcome.fuelOut
  | fuel + 1, i, sock =>
    match tryWait i with
    | Result.err e => LoopOutcome.errorReturn e
    | Result.ok st =>
      if st.isNone && !sock then connectLoop tryWait connect fuel (i + 1) (connect i)
      else if sock then LoopOutcome.connected
      else LoopOutcome.panicked

/-! ## QMP message framing (`src/qemu/qmp.rs`, `read_message`) -/

/-- How one `read_message` call ends: it reaches the JSON deserializer with
a given line, it propagates an I/O error from `read_line`, or it panics.
With overflow checks (the debug profile, under which the crate tests run),
`line.truncate(line.len() - 1)` on the empty line yielded by `read_line`
at end-of-stream is a subtract-with-overflow panic. -/
inductive ReadMessageOutcome
  | parsed (line : String)
  | ioError (e : Error)
  | panicked (msg : String)
deriving DecidableEq, Repr

/-- Function `read_message` in `src/qemu/qmp.rs`, up to the JSON deserialization:
read one line, then truncate its last byte with `line.truncate(line.len() - 1)`.
`readLine` is the outcome of `stream.read_line(..)`; at end-of-stream
`read_line` returns `Ok(0)` leaving the line empty. -/
def read_message (readLine : Result String) : ReadMessageOutcome :=
  match readLine with
  | Result.err e => ReadMessageOutcome.ioError e
  | Result.ok line =>
    if line.length = 0 then
      ReadMessageOutcome.panicked "attempt to subtract with overflow"
    else
      ReadMessageOutcome.parsed (line.dropRight 1)

/-! ## Disposal (`Drop` impls in `src/container.rs` and `src/qemu.rs`) -/

/-- External actions a `ContainerSystem` drop can take. -/
inductive ContainerDropAction
  | shutdownAttempt
  | removeContainer
deriving DecidableEq, Repr

/-- Impl `Drop for ContainerSystem` in `src/container.rs`, as the list of
external actions taken, given the outcomes of the `running()` check and of
the shutdown attempt (consulted only when one is made).  The function is
total and returns no error: disposal cannot fail outwardly. -/
def containerDrop (runningResult : Result Bool) (shutdownResult : Result Unit) :
    List ContainerDropAction :=
  match runningResult with
  | Result.ok true =>
    match shutdownResult with
    | Result.ok _ => [ContainerDropAction.shutdownAttempt, ContainerDropAction.removeContainer]
    | Result.err _ => [ContainerDropAction.shutdownAttempt]
  | Result.ok false => []
  | Result.err _ => []

/-- External actions a `QemuSystem` drop can take. -/
inductive QemuDropAction
  | quitCommand
deriving DecidableEq, Repr

/-- The outcome of one QMP `send_command` call as observed by its caller:
the call's Result, or a panic raised inside the call.  The panic case is
real: the correlation wait inside `send_command` reads each frame via
`read_message`, whose end-of-stream underflow panics under
checked-overflow semantics, and that panic propagates to the caller. -/
inductive QmpCallOutcome
  | ok (ret : QmpReturn)
  | err (e : Error)
  | panicked (msg : String)
deriving DecidableEq, Repr

/-- How one raw line read inside the correlation wait of `send_command`
settles the pending call, if it does: a `read_message` panic propagates
and aborts the whole call, an input-output error of the read fails the
call; a successfully truncated line yields a frame for the correlation
loop, so that read alone does not settle the call. -/
def callSettledByRead : ReadMessageOutcome → Option QmpCallOutcome
  | ReadMessageOutcome.panicked m => some (QmpCallOutcome.panicked m)
  | ReadMessageOutcome.ioError e => some (QmpCallOutcome.err e)
  | ReadMessageOutcome.parsed _ => none

/-- How `Drop for QemuSystem` ends: it completes having taken a list of
external actions, or a panic escapes it (Rust drop handlers do not catch
panics raised by the calls they make). -/
inductive QemuDropResult
  | completed (actions : List QemuDropAction)
  | panicked (msg : String)
deriving DecidableEq, Repr

/-- Impl `Drop for QemuSystem` in `src/qemu.rs`: if `running()` observed
`Ok(true)`, send one `quit` command; an `Err` result of that call is
logged and swallowed, but a panic raised inside the call (see
`callSettledByRead` and `read_message`) escapes the drop. -/
def qemuDrop (runningResult : Result Bool) (quitOutcome : QmpCallOutcome) :
    QemuDropResult :=
  match runningResult with
  | Result.ok true =>
    match quitOutcome with
    | QmpCallOutcome.ok _ => QemuDropResult.completed [QemuDropAction.quitCommand]
    | QmpCallOutcome.err _ => QemuDropResult.completed [QemuDropAction.quitCommand]
    | QmpCallOutcome.panicked m => QemuDropResult.panicked m
  | Result.ok false => QemuDropResult.completed []
  | Result.err _ => QemuDropResult.completed []

/-- The VM drop behaviour claimed after amendment (spec-side, for
comparison with `qemuDrop`): exactly one quit attempt when running was
observed, its error result swallowed, a panic inside it escaping. -/
def specQemuDrop (r : Result Bool) (q : QmpCallOutcome) : QemuDropResult :=
  if r = Result.ok true then
    match q with
    | QmpCallOutcome.panicked m => QemuDropResult.panicked m
    | _ => QemuDropResult.completed [QemuDropAction.quitCommand]
  else QemuDropResult.completed []

/-! ## Container terminal and build (`src/container.rs`) -/

/-- An external runtime invocation: the program and its arguments. -/
def Invocation : Type := List String

/-- Impl `SystemTerminal for ContainerSystemTerminal` in `src/container.rs`:
`send_key` unconditionally fails, and its body performs no external
invocation (the empty invocation list). -/
def ContainerSystemTerminal.send_key (key : Key) :
    Result Unit × List Invocation :=
  match key with
  | _ => (Result.err ⟨ErrorKind.HarnessError, "Sending a keystroke not supported"⟩, [])

/-- A built container system, from `src/container.rs`
(`struct ContainerSystem`): the runtime tool and the container id. -/
structure ContainerSystem where
  tool : String
  id : String
deriving DecidableEq, Repr

/-- Method `ContainerSystemConfig::build` in `src/container.rs`: run the create
invocation and convert its output with `output_to_result` (the `?` on the
chain), then run the start invocation with `.status()?` — the start exit
status value is discarded; only a spawn (input-output) failure of start propagates.
`createOutcome` is the result of spawning and collecting the create
invocation, `startOutcome` the result of spawning start and waiting for
its exit status. -/
def ContainerSystemConfig.build (tool : String) (createOutcome : Result Output)
    (startOutcome : Result Int) : Result ContainerSystem :=
  (createOutcome.bind output_to_result).bind fun id =>
    startOutcome.bind fun _ => Result.ok ⟨tool, id⟩

/-! ## Theorems -/

/-- C1 (counterexample): it is not the case that, on the VM backend,
`running()` returns `Ok(true)` exactly when `status()` returns
`Ok(Running)`: with the spawned process alive and QMP reporting the
textual state "paused", `status()` returns `Ok(Paused)` while `running()`
returns `Ok(true)`. -/
theorem C1_counterexample :
    ¬ ∀ (w : QemuWorld) (s : Status), QemuSystem.status w = Result.ok s →
      (QemuSystem.running w = Result.ok true ↔ s = Status.Running) := by
  intro h
  have h2 := h ⟨Result.ok none, Result.ok (QmpReturn.StatusInfo ⟨false, false, "paused"⟩)⟩
    Status.Paused (by decide)
  have h3 : Status.Paused = Status.Running := h2.mp (by decide)
  exact absurd h3 (by decide)

/-- C1 (amended): on the container backend `running()` is the convenience
predicate equivalent to `status() == Running`; on the VM backend
`running()` instead reports whether the spawned process has not yet
exited (`try_wait()` returned `None`), independent of the QMP status. -/
theorem C1_running_spec :
    (∀ (l : List Inspect) (s : Status),
      ContainerSystem.statusOfInspect l = Result.ok s →
        (ContainerSystem.runningOfInspect l = Result.ok true ↔ s = Status.Running)) ∧
    (∀ (w : QemuWorld) (st : Option Nat), w.tryWait = Result.ok st →
      QemuSystem.running w = Result.ok st.isNone) := by
  constructor
  · intro l s h
    unfold ContainerSystem.runningOfInspect
    rw [h]
    cases s <;> decide
  · intro w st h
    unfold QemuSystem.running
    rw [h]

/-- C1 (witness): the amended statement applied to a running container
inspect element and to a VM world whose process is alive. -/
theorem C1_running_spec_witness :
    (ContainerSystem.runningOfInspect [⟨⟨true, false⟩⟩] = Result.ok true ↔
      Status.Running = Status.Running) ∧
    QemuSystem.running ⟨Result.ok none, Result.ok QmpReturn.Empty⟩ = Result.ok true := by
  have h := C1_running_spec
  exact ⟨h.1 [⟨⟨true, false⟩⟩] Status.Running (by decide),
    h.2 ⟨Result.ok none, Result.ok QmpReturn.Empty⟩ none (by decide)⟩

/-- C2 (code bug): the connect-with-retry loop of `QemuSystemConfig::build`.
If the spawned process has exited while no connect attempt succeeded, the
loop falls through to `qmp_socket.unwrap()` on `None` and panics instead
of returning a startup-failure error; a successful connect yields the
socket, and a `try_wait` failure is the only path that returns an error. -/
theorem C2_connect_loop_panics :
    connectLoop (fun _ => Result.ok (some 0)) (fun _ => false) 1 0 false =
      LoopOutcome.panicked ∧
    connectLoop (fun _ => Result.ok none) (fun _ => true) 3 0 false =
      LoopOutcome.connected ∧
    connectLoop (fun _ => Result.err ⟨ErrorKind.HarnessError, "poll failed"⟩)
      (fun _ => false) 3 0 false =
      LoopOutcome.errorReturn ⟨ErrorKind.HarnessError, "poll failed"⟩ :=
  ⟨rfl, rfl, rfl⟩

/-- C3 (counterexample): the textual state "save-in-progress" is not
mapped to `Paused` but rejected as unsupported; the state the code does
map to `Paused` besides "paused" is "save-vm". -/
theorem C3_counterexample :
    QmpStatusInfo.tryIntoStatus ⟨false, false, "save-in-progress"⟩ =
      Result.err ⟨ErrorKind.HarnessError, "Unsupported status: save-in-progress"⟩ ∧
    QmpStatusInfo.tryIntoStatus ⟨false, false, "save-vm"⟩ = Result.ok Status.Paused :=
  ⟨by decide, by decide⟩

/-- C3 (amended): `QemuSystem::status()` translates the textual run state
by exactly the mapping "running" to Running, "shutdown" to Shutdown,
"paused" to Paused and "save-vm" to Paused, returning a HarnessError
("Unsupported status") for every other textual state; the translation is
applied to the `StatusInfo` return of the `query-status` command. -/
theorem C3_status_mapping :
    (∀ info : QmpStatusInfo,
      QmpStatusInfo.tryIntoStatus info = specQmpStatusMap info.status) ∧
    (∀ (w : QemuWorld) (info : QmpStatusInfo),
      w.queryStatus = Result.ok (QmpReturn.StatusInfo info) →
        QemuSystem.status w = QmpStatusInfo.tryIntoStatus info) := by
  constructor
  · intro info
    unfold QmpStatusInfo.tryIntoStatus specQmpStatusMap
    split <;> simp_all
  · intro w info h
    unfold QemuSystem.status
    rw [h]

/-- C3 (witness): the amended translation applied to a world where
`query-status` returns the textual state "running". -/
theorem C3_status_mapping_witness :
    QemuSystem.status
      ⟨Result.ok none, Result.ok (QmpReturn.StatusInfo ⟨true, false, "running"⟩)⟩ =
      Result.ok Status.Running := by
  have h := C3_status_mapping.2
    ⟨Result.ok none, Result.ok (QmpReturn.StatusInfo ⟨true, false, "running"⟩)⟩
    ⟨true, false, "running"⟩ rfl
  exact h.trans (by decide)

/-- C5 (confirmed): the container status decision on the parsed inspect
array: an empty array is the HarnessError "Container doesn't exist", and
otherwise the first element's flags decide the status by running implies
Running, else paused implies Paused, else Shutdown; no state of the
harness besides the fresh inspect output enters the decision. -/
theorem C5_container_status :
    ContainerSystem.statusOfInspect [] =
      Result.err ⟨ErrorKind.HarnessError, "Container doesn\x27t exist"⟩ ∧
    (∀ (i : Inspect) (rest : List Inspect),
      ContainerSystem.statusOfInspect (i :: rest) =
        Result.ok (specContainerStatusMap i.state)) := by
  refine ⟨rfl, ?_⟩
  intro i rest
  rcases i with ⟨⟨r, p⟩⟩
  cases r <;> cases p <;> rfl

/-- C7 (confirmed): serializing `QmpCommand::Quit` and the
send-key-Enter command yields the exact byte strings of the wire
protocol. -/
theorem C7_serialization :
    QmpCommand.Quit.serialize = "\x7b\x22execute\x22:\x22quit\x22\x7d" ∧
    (QmpCommand.SendKey ⟨[Key.intoKeyValue Key.Enter]⟩).serialize =
      "\x7b\x22execute\x22:\x22send-key\x22,\x22arguments\x22:\x7b\x22keys\x22:[\x7b\x22type\x22:\x22qcode\x22,\x22data\x22:\x22ret\x22\x7d]\x7d\x7d" :=
  ⟨by decide, by decide⟩

/-- C8 (confirmed): for every key, `send_key` on the container terminal
fails with a HarnessError and performs no external invocation. -/
theorem C8_send_key_unsupported :
    ∀ k : Key, ContainerSystemTerminal.send_key k =
      (Result.err ⟨ErrorKind.HarnessError, "Sending a keystroke not supported"⟩,
        ([] : List Invocation)) := by
  intro k
  cases k
  rfl

/-- C9 (confirmed): with overflow checks, `read_message` on the empty
line produced by `read_line` at end-of-stream panics in
`line.truncate(line.len() - 1)` rather than returning any error; on a
non-empty line it truncates the trailing byte and proceeds to the
deserializer, and an I/O failure of `read_line` is propagated as an
error. -/
theorem C9_read_message_eof_panics :
    read_message (Result.ok "") =
      ReadMessageOutcome.panicked "attempt to subtract with overflow" ∧
    (∀ e : Error, read_message (Result.ok "") ≠ ReadMessageOutcome.ioError e) ∧
    (∀ line : String, line.length ≠ 0 →
      read_message (Result.ok line) = ReadMessageOutcome.parsed (line.dropRight 1)) ∧
    (∀ e : Error, read_message (Result.err e) = ReadMessageOutcome.ioError e) := by
  refine ⟨rfl, ?_, ?_, fun e => rfl⟩
  · intro e h
    simp [read_message] at h
  · intro line h
    simp [read_message, h]

/-- C9 (witness): a non-empty received line is truncated by one byte and
handed to the deserializer. -/
theorem C9_read_message_eof_panics_witness :
    ("abc\n").length ≠ 0 ∧
    read_message (Result.ok "abc\n") = ReadMessageOutcome.parsed "abc" := by
  have h := C9_read_message_eof_panics.2.2.1 "abc\n" (by decide)
  exact ⟨by decide, h.trans (by decide)⟩

/-- C10 (counterexample): a failed create invocation whose stderr ends in
a newline produces a HarnessError carrying the raw stderr text, not the
trimmed text: trimming is applied only to stdout on success. -/
theorem C10_counterexample :
    ContainerSystemConfig.build "ctr" (Result.ok ⟨false, "", "boom\n"⟩) (Result.ok 0) =
      Result.err ⟨ErrorKind.HarnessError, "boom\n"⟩ ∧
    strip_last_newline "boom\n" = "boom" ∧
    ("boom\n" : String) ≠ strip_last_newline "boom\n" :=
  ⟨by decide, by decide, by decide⟩

/-- C10 (amended): `ContainerSystemConfig::build` converts a non-zero
exit of the create invocation into a HarnessError carrying the raw
(untrimmed) stderr text, and ignores the exit status of the subsequent
start invocation: build succeeds whenever create succeeded and the start
process could be spawned, whatever exit code start produced; only a
spawn (input-output) failure of start (or of create) makes build fail. -/
theorem C10_build_spec :
    ∀ (tool : String) (out : Output) (startOutcome : Result Int),
      (out.success = false →
        ContainerSystemConfig.build tool (Result.ok out) startOutcome =
          Result.err ⟨ErrorKind.HarnessError, out.stderr⟩) ∧
      (out.success = true → ∀ code : Int,
        ContainerSystemConfig.build tool (Result.ok out) (Result.ok code) =
          Result.ok ⟨tool, strip_last_newline out.stdout⟩) ∧
      (out.success = true → ∀ e : Error,
        ContainerSystemConfig.build tool (Result.ok out) (Result.err e) =
          Result.err e) ∧
      (∀ e : Error,
        ContainerSystemConfig.build tool (Result.err e) startOutcome = Result.err e) := by
  intro tool out so
  refine ⟨?_, ?_, ?_, fun e => rfl⟩
  · intro h
    simp [ContainerSystemConfig.build, Result.bind, output_to_result, h]
  · intro h code
    simp [ContainerSystemConfig.build, Result.bind, output_to_result, h]
  · intro h e
    simp [ContainerSystemConfig.build, Result.bind, output_to_result, h]

/-- C10 (witness): the amended statement at a successful create whose
stdout ends in a newline and a start that exited with code 137, and at a
failed create. -/
theorem C10_build_spec_witness :
    ContainerSystemConfig.build "ctr" (Result.ok ⟨true, "abc\n", ""⟩) (Result.ok 137) =
      Result.ok ⟨"ctr", "abc"⟩ ∧
    ContainerSystemConfig.build "ctr" (Result.ok ⟨false, "", "oops"⟩) (Result.ok 0) =
      Result.err ⟨ErrorKind.HarnessError, "oops"⟩ := by
  have h := C10_build_spec "ctr" ⟨true, "abc\n", ""⟩ (Result.ok 137)
  have h2 := C10_build_spec "ctr" ⟨false, "", "oops"⟩ (Result.ok 0)
  exact ⟨(h.2.1 rfl 137).trans (by decide), h2.1 rfl⟩

/-- Delivering one event and then a batch appends the event at the front
of the batch, for every subscriber log. -/
theorem send_event_map_append (subs : List (List Event)) (ev : Event) (d : List Event) :
    ((send_event subs ev).map fun log => log ++ d) =
      subs.map fun log => log ++ (ev :: d) := by
  unfold send_event
  rw [List.map_map]
  simp [Function.comp, List.append_assoc]

/-- The correlation loop resolves with the first terminal frame and hands
every subscriber exactly the recognized events that precede it, in
order. -/
theorem wait_for_return_spec (frames : List QmpResponse) :
    ∀ subs : List (List Event),
      (wait_for_return subs frames).1 = (frames.find? isTerminalFrame).bind resolveFrame ∧
      (wait_for_return subs frames).2 = (subs.map fun log => log ++ deliveredEvents frames) := by
  induction frames with
  | nil =>
    intro subs
    refine ⟨rfl, ?_⟩
    simp [wait_for_return, deliveredEvents]
  | cons f rest ih =>
    intro subs
    cases f with
    | Success ret =>
      refine ⟨?_, ?_⟩ <;>
        simp [wait_for_return, deliveredEvents, isTerminalFrame, resolveFrame,
          List.find?, List.takeWhile]
    | Error e =>
      refine ⟨?_, ?_⟩ <;>
        simp [wait_for_return, deliveredEvents, isTerminalFrame, resolveFrame,
          List.find?, List.takeWhile]
    | Event ts name =>
      cases hce : create_event ts name with
      | some ev =>
        refine ⟨?_, ?_⟩
        · have h1 := (ih (send_event subs ev)).1
          simp [wait_for_return, hce, isTerminalFrame, List.find?]
          exact h1
        · have h2 := (ih (send_event subs ev)).2
          have h3 : deliveredEvents (QmpResponse.Event ts name :: rest) =
              ev :: deliveredEvents rest := by
            simp [deliveredEvents, isTerminalFrame, List.takeWhile, eventOfFrame, hce]
          rw [h3]
          simp only [wait_for_return, hce]
          rw [h2, send_event_map_append]
      | none =>
        refine ⟨?_, ?_⟩
        · have h1 := (ih subs).1
          simp [wait_for_return, hce, isTerminalFrame, List.find?]
          exact h1
        · have h2 := (ih subs).2
          have h3 : deliveredEvents (QmpResponse.Event ts name :: rest) =
              deliveredEvents rest := by
            simp [deliveredEvents, isTerminalFrame, List.takeWhile, eventOfFrame, hce]
          rw [h3]
          simp only [wait_for_return, hce]
          exact h2

/-- C4 (confirmed): while one command is pending, the correlation loop
delivers each recognized event frame (POWERDOWN to Shutdown, STOP to
Pause, RESUME to Resume), in receipt order, to every registered
subscriber, silently drops frames with any other event name, and resolves
the pending command with the first Success or Error frame, an Error frame
failing the call with a HarnessError carrying the remote error text. -/
theorem C4_correlation_loop :
    ∀ (frames : List QmpResponse) (subs : List (List Event)),
      (wait_for_return subs frames).1 = (frames.find? isTerminalFrame).bind resolveFrame ∧
      (wait_for_return subs frames).2 = (subs.map fun log => log ++ deliveredEvents frames) ∧
      (∀ ts : QmpTimestamp,
        create_event ts "POWERDOWN" = some ⟨EventKind.Shutdown, ts.intoMicros⟩ ∧
        create_event ts "STOP" = some ⟨EventKind.Pause, ts.intoMicros⟩ ∧
        create_event ts "RESUME" = some ⟨EventKind.Resume, ts.intoMicros⟩) ∧
      (∀ (ts : QmpTimestamp) (name : String),
        name ≠ "POWERDOWN" → name ≠ "STOP" → name ≠ "RESUME" →
          create_event ts name = none) ∧
      (∀ e : String, resolveFrame (QmpResponse.Error e) =
        some (Result.err ⟨ErrorKind.HarnessError, e⟩)) := by
  intro frames subs
  have h := wait_for_return_spec frames subs
  refine ⟨h.1, h.2, fun ts => ⟨rfl, rfl, rfl⟩, ?_, fun e => rfl⟩
  intro ts name h1 h2 h3
  unfold create_event
  split <;> simp_all

/-- C4 (witness): the loop run on a STOP event, an unrecognized event and
an Error frame delivers one Pause event to each of two subscribers and
fails the call with the remote error text. -/
theorem C4_correlation_loop_witness :
    (wait_for_return [[], []]
      [QmpResponse.Event ⟨1, 2⟩ "STOP", QmpResponse.Event ⟨1, 2⟩ "FOO",
        QmpResponse.Error "remote failure"]).2 =
      [[⟨EventKind.Pause, 1000002⟩], [⟨EventKind.Pause, 1000002⟩]] ∧
    (wait_for_return [[], []]
      [QmpResponse.Event ⟨1, 2⟩ "STOP", QmpResponse.Event ⟨1, 2⟩ "FOO",
        QmpResponse.Error "remote failure"]).1 =
      some (Result.err ⟨ErrorKind.HarnessError, "remote failure"⟩) ∧
    create_event ⟨1, 2⟩ "FOO" = none := by
  have h := C4_correlation_loop
    [QmpResponse.Event ⟨1, 2⟩ "STOP", QmpResponse.Event ⟨1, 2⟩ "FOO",
      QmpResponse.Error "remote failure"] [[], []]
  exact ⟨(h.2.1).trans (by decide), (h.1).trans (by decide),
    h.2.2.2.1 ⟨1, 2⟩ "FOO" (by decide) (by decide) (by decide)⟩

/-- C6 (counterexample): disposal of a VM-backed harness whose system was
observed running can panic: when the QMP stream is at end-of-stream as
the quit response is awaited, the read inside `send_command` settles the
call as a panic (the `read_message` subtract-with-overflow of C9), and
that panic escapes the drop instead of disposal completing without
raising. -/
theorem C6_counterexample :
    callSettledByRead (read_message (Result.ok "")) =
      some (QmpCallOutcome.panicked "attempt to subtract with overflow") ∧
    qemuDrop (Result.ok true)
        (QmpCallOutcome.panicked "attempt to subtract with overflow") =
      QemuDropResult.panicked "attempt to subtract with overflow" ∧
    qemuDrop (Result.ok true)
        (QmpCallOutcome.panicked "attempt to subtract with overflow") ≠
      QemuDropResult.completed [QemuDropAction.quitCommand] :=
  ⟨rfl, rfl, by decide⟩

/-- C6 (amended): disposal never propagates an error, and when the system
is observed running exactly one graceful shutdown attempt is made; on the
container backend disposal also never panics and the container is
force-removed (rm -f) only when that attempt succeeded — after a failed
attempt the container is left in place; on the VM backend the quit call's
error result is swallowed, but a panic raised inside the quit call (the
end-of-stream underflow of `read_message`, under checked-overflow
semantics) escapes the drop. -/
theorem C6_disposal :
    ∀ (r : Result Bool) (s : Result Unit) (q : QmpCallOutcome),
      (containerDrop r s =
        if r = Result.ok true then
          if s = Result.ok () then
            [ContainerDropAction.shutdownAttempt, ContainerDropAction.removeContainer]
          else [ContainerDropAction.shutdownAttempt]
        else []) ∧
      ((containerDrop r s).count ContainerDropAction.shutdownAttempt =
        if r = Result.ok true then 1 else 0) ∧
      (ContainerDropAction.removeContainer ∈ containerDrop r s ↔
        (r = Result.ok true ∧ s = Result.ok ())) ∧
      (qemuDrop r q = specQemuDrop r q) ∧
      (∀ e : Error, qemuDrop r (QmpCallOutcome.err e) =
        if r = Result.ok true then
          QemuDropResult.completed [QemuDropAction.quitCommand]
        else QemuDropResult.completed []) := by
  intro r s q
  rcases r with b | e
  · cases b
    · rcases s with u | e2 <;> rcases q with v | e3 | m3 <;>
        simp [containerDrop, qemuDrop, specQemuDrop]
    · rcases s with u | e2 <;> rcases q with v | e3 | m3 <;>
        simp [containerDrop, qemuDrop, specQemuDrop, List.count_cons]
  · rcases s with u | e2 <;> rcases q with v | e3 | m3 <;>
      simp [containerDrop, qemuDrop, specQemuDrop]

/-- C5 (witness): the mapping applied to a paused container (running
false, paused true) and to the empty inspect array. -/
theorem C5_container_status_witness :
    ContainerSystem.statusOfInspect [⟨⟨false, true⟩⟩] = Result.ok Status.Paused ∧
    ContainerSystem.statusOfInspect [] =
      Result.err ⟨ErrorKind.HarnessError, "Container doesn\x27t exist"⟩ := by
  have h := C5_container_status
  exact ⟨(h.2 ⟨⟨false, true⟩⟩ []).trans (by decide), h.1⟩

/-- C6 (witness): the amended disposal characterization at a system
observed running whose shutdown attempt fails — one shutdown attempt, no
force-remove — at one whose attempt succeeds, and at a VM drop whose quit
call returns an error, which is swallowed. -/
theorem C6_disposal_witness :
    containerDrop (Result.ok true) (Result.err ⟨ErrorKind.HarnessError, "stop failed"⟩) =
      [ContainerDropAction.shutdownAttempt] ∧
    containerDrop (Result.ok true) (Result.ok ()) =
      [ContainerDropAction.shutdownAttempt, ContainerDropAction.removeContainer] ∧
    qemuDrop (Result.ok true) (QmpCallOutcome.err ⟨ErrorKind.HarnessError, "quit failed"⟩) =
      QemuDropResult.completed [QemuDropAction.quitCommand] := by
  have h1 := C6_disposal (Result.ok true)
    (Result.err ⟨ErrorKind.HarnessError, "stop failed"⟩)
    (QmpCallOutcome.err ⟨ErrorKind.HarnessError, "quit failed"⟩)
  have h2 := C6_disposal (Result.ok true) (Result.ok ())
    (QmpCallOutcome.ok QmpReturn.Empty)
  exact ⟨h1.1.trans (by decide), h2.1.trans (by decide),
    (h1.2.2.2.2 ⟨ErrorKind.HarnessError, "quit failed"⟩).trans (by decide)⟩

/-- C8 (witness): `send_key` with the Enter key on the container
terminal. -/
theorem C8_send_key_unsupported_witness :
    ContainerSystemTerminal.send_key Key.Enter =
      (Result.err ⟨ErrorKind.HarnessError, "Sending a keystroke not supported"⟩,
        ([] : List Invocation)) :=
  C8_send_key_unsupported Key.Enter

end Harness
